import Mathlib

/-!
Verification of the KBDB retrieval pipeline (src/KBDB.py) against its
natural-language specification.

The Python module is shallowly embedded: the static configuration tables
(`MODELS`, `TASKS`, `DISTANCE_OPERATORS`, `DISTANCE_ORDER`) become Lean
association lists, the stateful server becomes explicit state passing over a
`ServerState` record that also logs every embedding-backend request and every
document-store query, and the external collaborators (embedding backend,
document store) become function-valued fields of an `Env` record.  Embedding
vectors are modelled as `List Int`: the pipeline never computes on vector
components, it only passes them through, so the carrier type is irrelevant to
every property proved here; for the ranking-direction analysis, integer inner
products realise the relevant orderings exactly.
-/

namespace KBDB

/-- Embedding model configuration (source: `Model` dataclass, KBDB.py).
Field `pre` is the source's `prefix` field and `suffix` its `suffix` field;
`distance_metric` defaults to `"cosine"` as in the source. -/
structure Model where
  model : String
  pre : String := ""
  suffix : String := ""
  distance_metric : String := "cosine"
  deriving DecidableEq

/-- Task configuration (source: `Task` dataclass, KBDB.py). -/
structure Task where
  name : String
  description : String
  deriving DecidableEq

/-- Source: the `MODELS` dict (KBDB.py lines 47-52).  All entries leave
`distance_metric` at its `"cosine"` default. -/
def MODELS : List (String × Model) :=
  [("qa",           ⟨"nomic-embed-text:v1.5",                 "search_query: ",   "", "cosine"⟩),
   ("style",        ⟨"nomic-embed-text:v1.5",                 "classification: ", "", "cosine"⟩),
   ("semantic",     ⟨"nomic-embed-text:v1.5",                 "clustering: ",     "", "cosine"⟩),
   ("similar_code", ⟨"hamidakach/nomic-embed-text-v1.5-GGUF", "clustering: ",     "", "cosine"⟩)]

/-- Source: the `TASKS` dict (KBDB.py lines 54-59). -/
def TASKS : List (String × Task) :=
  [("style",        ⟨"style",        "Search for content clustered by theme or style"⟩),
   ("qa",           ⟨"qa",           "Search optimized for question->answer pairs"⟩),
   ("semantic",     ⟨"semantic",     "Search based on semantic similarity"⟩),
   ("similar_code", ⟨"similar_code", "Search for similar code snippets"⟩)]

/-- Source: the `DISTANCE_OPERATORS` dict (KBDB.py lines 62-66). -/
def DISTANCE_OPERATORS : List (String × String) :=
  [("cosine", "<=>"), ("inner_product", "<#>"), ("l2", "<->")]

/-- Source: the `DISTANCE_ORDER` dict (KBDB.py lines 68-72). -/
def DISTANCE_ORDER : List (String × String) :=
  [("cosine", "ASC"), ("inner_product", "DESC"), ("l2", "ASC")]

/-- One match row as normalized by `_search_database` (KBDB.py lines 143-150). -/
structure MatchRecord where
  doc_id : String
  doc_name : String
  matching_content : String
  deriving DecidableEq

/-- One entry of the formatted output: the f-string built per result in
`_format_results` (KBDB.py lines 162-167), for 1-based index `i`. -/
def formatEntry (i : Nat) (r : MatchRecord) : String :=
  "--- Result " ++ toString i ++ " | " ++ r.doc_name ++ " | " ++ r.doc_id ++
    " ---\n--- Document Start ---\nContent: " ++ r.matching_content ++
    "\n--- Document End ---\n"

/-- The `for i, result in enumerate(results, 1)` loop of `_format_results`
(KBDB.py lines 160-167): one rendered entry per record, counter starting at
`n`. -/
def renderedFrom : Nat → List MatchRecord → List String
  | _, [] => []
  | n, r :: rs => formatEntry n r :: renderedFrom (n + 1) rs

/-- Source: `_format_results` (KBDB.py lines 155-169): the empty-input sentinel,
otherwise the rendered entries joined with a newline. -/
def formatResults (rs : List MatchRecord) : String :=
  match rs with
  | [] => "No relevant information found in the knowledge base."
  | _ => String.intercalate "\n" (renderedFrom 1 rs)

example : formatResults [] = "No relevant information found in the knowledge base." := by decide

example :
    formatResults [⟨"42", "policy.md", "Refunds within 30 days."⟩] =
      "--- Result 1 | policy.md | 42 ---\n--- Document Start ---\nContent: Refunds within 30 days.\n--- Document End ---\n" := by
  decide

/-- One request to the external embedding backend: the `model` and `input`
arguments of `openai_client.embeddings.create` in `_get_embedding`
(KBDB.py lines 111-114). -/
structure EmbedRequest where
  model : String
  input : String
  deriving DecidableEq

/-- One raw row of the `SEARCH_QUERY` result set: `(doc_id, doc_name,
matching_content)` (KBDB.py lines 20-31). -/
structure SqlRow where
  doc_id : String
  doc_name : String
  content : String
  deriving DecidableEq

/-- One parameterized nearest-neighbor query as `_search_database` issues it
(KBDB.py lines 123-137): the two interpolated SQL fragments plus the four
query parameters `(model.model, task.name, query_embedding, top_k)`. -/
structure DBQuery where
  operator : String
  order_direction : String
  model : String
  task : String
  embedding : List Int
  top_k : Int
  deriving DecidableEq

/-- The two external collaborators, as fallible functions: the embedding
backend behind `openai_client` and the document store behind `db_conn`.
An `Except.error` models the exception the Python client would raise. -/
structure Env where
  embedBackend : EmbedRequest → Except String (List Int)
  store : DBQuery → Except String (List SqlRow)

/-- Process-wide server state: the four configuration tables (initialized from
the module-level dicts at startup) plus logs of every embedding-backend call
and every document-store query made, so that contact with the collaborators
and table mutation are both observable. -/
structure ServerState where
  models : List (String × Model)
  tasks : List (String × Task)
  distance_operators : List (String × String)
  distance_order : List (String × String)
  embedLog : List EmbedRequest
  queryLog : List DBQuery
  deriving DecidableEq

/-- The state right after module initialization (KBDB.py lines 47-72, 172). -/
def initState : ServerState :=
  ⟨MODELS, TASKS, DISTANCE_OPERATORS, DISTANCE_ORDER, [], []⟩

/-- Source: `RAGMCPServer._get_embedding` (KBDB.py lines 107-118): frames the
text as `prefix + text + suffix`, requests the vector for `model.model`, and
returns the backend's vector unmodified (or re-raises the backend's error).
The request is recorded in `embedLog`. -/
def get_embedding (env : Env) (st : ServerState) (text : String) (m : Model) :
    Except String (List Int) × ServerState :=
  let req : EmbedRequest := ⟨m.model, m.pre ++ text ++ m.suffix⟩
  (env.embedBackend req, { st with embedLog := st.embedLog ++ [req] })

/-- Source: `RAGMCPServer._search_database` (KBDB.py lines 120-153): resolves
operator and sort direction from the metric tables (a missing key raises
`KeyError`, modelled as `.error` before any query is issued), executes the
parameterized query, and normalizes each row into a `MatchRecord`.  The issued
query is recorded in `queryLog`. -/
def search_database (env : Env) (st : ServerState) (qe : List Int) (m : Model)
    (t : Task) (top_k : Int) : Except String (List MatchRecord) × ServerState :=
  match st.distance_operators.lookup m.distance_metric,
        st.distance_order.lookup m.distance_metric with
  | some op, some dir =>
    let q : DBQuery := ⟨op, dir, m.model, t.name, qe, top_k⟩
    let st1 : ServerState := { st with queryLog := st.queryLog ++ [q] }
    (match env.store q with
     | .ok rows => .ok (rows.map fun r => (⟨r.doc_id, r.doc_name, r.content⟩ : MatchRecord))
     | .error e => .error e, st1)
  | _, _ => (.error ("'" ++ m.distance_metric ++ "'"), st)

/-- The shared body of the three `@mcp.tool` search operations (KBDB.py
lines 175-233): look up the model and task for the profile key (a missing key
raises `KeyError`, whose string form is the quoted key), embed the query,
search the store, format the results; any exception is caught at this boundary
and turned into a `"Search failed: "` message. -/
def run_search (env : Env) (st : ServerState) (modelKey taskKey query : String)
    (top_k : Int) : String × ServerState :=
  match st.models.lookup modelKey, st.tasks.lookup taskKey with
  | some m, some t =>
    (match get_embedding env st query m with
     | (.ok v, st1) =>
       (match search_database env st1 v m t top_k with
        | (.ok rs, st2) => (formatResults rs, st2)
        | (.error e, st2) => ("Search failed: " ++ e, st2))
     | (.error e, st1) => ("Search failed: " ++ e, st1))
  | some _, none => ("Search failed: " ++ ("'" ++ taskKey ++ "'"), st)
  | none, _ => ("Search failed: " ++ ("'" ++ modelKey ++ "'"), st)

/-- Source: `search_style` (KBDB.py lines 175-193), the `@mcp.tool` for the
`style` profile. -/
def search_style (env : Env) (st : ServerState) (query : String) (top_k : Int) :
    String × ServerState :=
  run_search env st "style" "style" query top_k

/-- Source: `search_qa` (KBDB.py lines 195-213), the `@mcp.tool` for the `qa`
profile. -/
def search_qa (env : Env) (st : ServerState) (query : String) (top_k : Int) :
    String × ServerState :=
  run_search env st "qa" "qa" query top_k

/-- Source: `search_semantic_similarity` (KBDB.py lines 215-233), the
`@mcp.tool` for the `semantic` profile. -/
def search_semantic_similarity (env : Env) (st : ServerState) (query : String)
    (top_k : Int) : String × ServerState :=
  run_search env st "semantic" "semantic" query top_k

/-- The tool-exposure surface: name, profile keys, and `top_k` default of each
function registered with `@mcp.tool` (KBDB.py lines 175-233).  Exactly three
operations are registered; no tool uses the `similar_code` profile. -/
structure ToolSpec where
  name : String
  modelKey : String
  taskKey : String
  defaultTopK : Int
  deriving DecidableEq

/-- The three `@mcp.tool`-decorated operations, in source order. -/
def exposedTools : List ToolSpec :=
  [⟨"search_style", "style", "style", 3⟩,
   ⟨"search_qa", "qa", "qa", 3⟩,
   ⟨"search_semantic_similarity", "semantic", "semantic", 3⟩]

/-! ### Document-store ranking semantics (for the metric-direction analysis)

The document store itself is an external collaborator; its ranking behavior is
modelled from the spec's interface description: rows are ordered by the value
of the ranking expression in the requested sort direction, and the
inner-product ranking expression is the *negative* inner product. -/

/-- Integer dot product of two vectors (componentwise, truncated at the
shorter vector). -/
def dot : List Int → List Int → Int
  | a :: as, b :: bs => a * b + dot as bs
  | _, _ => 0

/-- A row of the `embeddings` table joined with its chunk and document, as the
store sees it before ranking. -/
structure StoredRow where
  embedding : List Int
  doc_id : String
  doc_name : String
  content : String
  deriving DecidableEq

/-- Insert into a list sorted by `le` (ordering step of `ORDER BY`). -/
def insertLe {α : Type} (le : α → α → Bool) (x : α) : List α → List α
  | [] => [x]
  | y :: ys => if le x y then x :: y :: ys else y :: insertLe le x ys

/-- Sort by `le` (insertion sort; the ranking step of `ORDER BY`). -/
def sortLe {α : Type} (le : α → α → Bool) : List α → List α
  | [] => []
  | x :: xs => insertLe le x (sortLe le xs)

/-- Modelled from the spec: the store's `ORDER BY score direction` step — rows
ranked by `score`, ascending for `"ASC"` and descending for `"DESC"`.  (The
store is an external collaborator; only its ranking contract is modelled.) -/
def rankRows (score : StoredRow → Int) (dir : String) (rows : List StoredRow) :
    List StoredRow :=
  if dir = "DESC" then sortLe (fun a b => score b ≤ score a) rows
  else sortLe (fun a b => score a ≤ score b) rows

/-- Modelled from the spec: the `<#>` ranking expression evaluates to the
*negative* inner product of the stored embedding and the query vector. -/
def negInnerProduct (q : List Int) (r : StoredRow) : Int := -(dot r.embedding q)

/-! ### Verbatim-containment predicate for the formatter -/

/-- `containsSub needle hay`: `needle` occurs verbatim inside `hay`. -/
def containsSub (needle hay : String) : Prop :=
  ∃ a b, hay = a ++ (needle ++ b)

/-- A benign environment: the backend returns a one-component vector, the
store returns zero rows. -/
def envOkEmpty : Env := ⟨fun _ => .ok [1], fun _ => .ok []⟩

/-! ### Claims -/

/-- C7: on the empty list of match records the formatter returns the fixed
"no relevant information found" sentinel, which is non-empty; no error is
possible (`formatResults` is total). -/
theorem C7_empty_sentinel :
    formatResults [] = "No relevant information found in the knowledge base." ∧
    formatResults [] ≠ "" := by
  decide

/-- C5: every profile in the static registry has a `distance_metric` with an
entry in both metric-resolver tables, so metric resolution succeeds for every
supported task. -/
theorem C5_registry_resolver_consistent :
    ∀ p ∈ MODELS,
      (DISTANCE_OPERATORS.lookup (Prod.snd p).distance_metric).isSome = true ∧
      (DISTANCE_ORDER.lookup (Prod.snd p).distance_metric).isSome = true := by
  decide

/-- Witness for C5 at the concrete `qa` registry entry. -/
theorem C5_witness :
    (("qa", (⟨"nomic-embed-text:v1.5", "search_query: ", "", "cosine"⟩ : Model)) ∈ MODELS) ∧
    ((DISTANCE_OPERATORS.lookup "cosine").isSome = true ∧
      (DISTANCE_ORDER.lookup "cosine").isSome = true) :=
  ⟨by decide,
    C5_registry_resolver_consistent
      ("qa", (⟨"nomic-embed-text:v1.5", "search_query: ", "", "cosine"⟩ : Model))
      (by decide)⟩

/-- C2: the code's sort direction for `inner_product` is wrong.  The operator
table maps `inner_product` to `<#>`, whose ranking expression is the negative
inner product, and the order table maps it to `DESC`.  On two stored rows with
raw inner products 2 (`rowHigh`) and 1 (`rowLow`) against the query vector,
ranking `DESC` on the negated value puts the *lower*-similarity row first,
while the claim's direction (ascending on the negated value) puts the
higher-similarity row first. -/
theorem C2_inner_product_direction_bug :
    DISTANCE_OPERATORS.lookup "inner_product" = some "<#>" ∧
    DISTANCE_ORDER.lookup "inner_product" = some "DESC" ∧
    dot (⟨[2], "2", "high.md", "high"⟩ : StoredRow).embedding [1] >
      dot (⟨[1], "1", "low.md", "low"⟩ : StoredRow).embedding [1] ∧
    rankRows (negInnerProduct [1]) "DESC"
        [⟨[1], "1", "low.md", "low"⟩, ⟨[2], "2", "high.md", "high"⟩] =
      [⟨[1], "1", "low.md", "low"⟩, ⟨[2], "2", "high.md", "high"⟩] ∧
    rankRows (negInnerProduct [1]) "ASC"
        [⟨[1], "1", "low.md", "low"⟩, ⟨[2], "2", "high.md", "high"⟩] =
      [⟨[2], "2", "high.md", "high"⟩, ⟨[1], "1", "low.md", "low"⟩] := by
  decide

/-- C3 counterexample: the `similar_code` profile is present in both registry
tables, yet none of the three registered tools exposes it. -/
theorem C3_counterexample :
    (MODELS.lookup "similar_code").isSome = true ∧
    (TASKS.lookup "similar_code").isSome = true ∧
    exposedTools.length = 3 ∧
    (exposedTools.all fun t =>
      !(t.modelKey == "similar_code") && !(t.taskKey == "similar_code")) = true := by
  decide

/-- C3 (amended): the tool surface exposes one operation per profile in
`{style, qa, semantic}`, each defaulting `top_k` to 3; the `similar_code`
profile is registered but has no exposed operation. -/
theorem C3_exposed_tools :
    (∀ p ∈ (["style", "qa", "semantic"] : List String),
      (MODELS.lookup p).isSome = true ∧ (TASKS.lookup p).isSome = true ∧
      ∃ t ∈ exposedTools, t.modelKey = p ∧ t.taskKey = p ∧ t.defaultTopK = 3) ∧
    (∀ t ∈ exposedTools,
      t.modelKey ∈ (["style", "qa", "semantic"] : List String) ∧
      t.taskKey ∈ (["style", "qa", "semantic"] : List String)) ∧
    (MODELS.lookup "similar_code").isSome = true ∧
    (∀ t ∈ exposedTools, ¬(t.modelKey = "similar_code")) := by
  decide

/-- Helper: when the profile and metric lookups succeed, `run_search` sends
exactly one framed request to the embedding backend, and exactly one store
query (with the resolved operator, direction, and the given `top_k`) whenever
the embedding succeeds; a backend error is converted at the boundary. -/
theorem run_search_logs (env : Env) (st : ServerState) (mk tk q : String) (k : Int)
    (m : Model) (t : Task) (op dir : String)
    (hm : st.models.lookup mk = some m) (ht : st.tasks.lookup tk = some t)
    (hop : st.distance_operators.lookup m.distance_metric = some op)
    (hord : st.distance_order.lookup m.distance_metric = some dir) :
    (run_search env st mk tk q k).2.embedLog =
      st.embedLog ++ [⟨m.model, m.pre ++ q ++ m.suffix⟩] ∧
    (∀ e, env.embedBackend ⟨m.model, m.pre ++ q ++ m.suffix⟩ = .error e →
      (run_search env st mk tk q k).2.queryLog = st.queryLog ∧
      (run_search env st mk tk q k).1 = "Search failed: " ++ e) ∧
    (∀ v, env.embedBackend ⟨m.model, m.pre ++ q ++ m.suffix⟩ = .ok v →
      (run_search env st mk tk q k).2.queryLog =
        st.queryLog ++ [⟨op, dir, m.model, t.name, v, k⟩]) := by
  simp only [run_search, get_embedding, search_database, hm, ht]
  cases h : env.embedBackend ⟨m.model, m.pre ++ q ++ m.suffix⟩ with
  | error e =>
    refine ⟨rfl, ?_, ?_⟩
    · intro e2 he
      cases he
      exact ⟨rfl, rfl⟩
    · intro v hv
      cases hv
  | ok v =>
    simp only [hop, hord]
    cases h2 : env.store ⟨op, dir, m.model, t.name, v, k⟩ with
    | ok rows =>
      refine ⟨rfl, ?_, ?_⟩
      · intro e2 he
        cases he
      · intro w hw
        cases hw
        rfl
    | error e =>
      refine ⟨rfl, ?_, ?_⟩
      · intro e2 he
        cases he
      · intro w hw
        cases hw
        rfl

/-- Helper: every `run_search` result, over every environment and state, is
either the formatter's output on some record list or a message of the form
`"Search failed: " ++ e` — the shape of the boundary `except` handler. -/
theorem run_search_shape (env : Env) (st : ServerState) (mk tk q : String) (k : Int) :
    (∃ rs, (run_search env st mk tk q k).1 = formatResults rs) ∨
    (∃ e, (run_search env st mk tk q k).1 = "Search failed: " ++ e) := by
  simp only [run_search, get_embedding, search_database]
  cases hm : st.models.lookup mk with
  | none => exact .inr ⟨"'" ++ mk ++ "'", rfl⟩
  | some m =>
    cases ht : st.tasks.lookup tk with
    | none => exact .inr ⟨"'" ++ tk ++ "'", rfl⟩
    | some t =>
      dsimp only
      cases h : env.embedBackend ⟨m.model, m.pre ++ q ++ m.suffix⟩ with
      | error e => exact .inr ⟨e, rfl⟩
      | ok v =>
        dsimp only
        cases hop : st.distance_operators.lookup m.distance_metric with
        | none => exact .inr ⟨"'" ++ m.distance_metric ++ "'", rfl⟩
        | some op =>
          cases hord : st.distance_order.lookup m.distance_metric with
          | none => exact .inr ⟨"'" ++ m.distance_metric ++ "'", rfl⟩
          | some dir =>
            dsimp only
            cases h2 : env.store ⟨op, dir, m.model, t.name, v, k⟩ with
            | ok rows =>
              exact .inl ⟨rows.map fun r => ⟨r.doc_id, r.doc_name, r.content⟩, rfl⟩
            | error e => exact .inr ⟨e, rfl⟩

/-- Helper: `run_search` never changes the four configuration tables, in any
environment, from any starting state. -/
theorem run_search_frame (env : Env) (st : ServerState) (mk tk q : String) (k : Int) :
    (run_search env st mk tk q k).2.models = st.models ∧
    (run_search env st mk tk q k).2.tasks = st.tasks ∧
    (run_search env st mk tk q k).2.distance_operators = st.distance_operators ∧
    (run_search env st mk tk q k).2.distance_order = st.distance_order := by
  simp only [run_search, get_embedding, search_database]
  cases hm : st.models.lookup mk with
  | none => exact ⟨rfl, rfl, rfl, rfl⟩
  | some m =>
    cases ht : st.tasks.lookup tk with
    | none => exact ⟨rfl, rfl, rfl, rfl⟩
    | some t =>
      dsimp only
      cases h : env.embedBackend ⟨m.model, m.pre ++ q ++ m.suffix⟩ with
      | error e => exact ⟨rfl, rfl, rfl, rfl⟩
      | ok v =>
        dsimp only
        cases hop : st.distance_operators.lookup m.distance_metric with
        | none => exact ⟨rfl, rfl, rfl, rfl⟩
        | some op =>
          cases hord : st.distance_order.lookup m.distance_metric with
          | none => exact ⟨rfl, rfl, rfl, rfl⟩
          | some dir =>
            dsimp only
            cases h2 : env.store ⟨op, dir, m.model, t.name, v, k⟩ with
            | ok rows => exact ⟨rfl, rfl, rfl, rfl⟩
            | error e => exact ⟨rfl, rfl, rfl, rfl⟩

/-- C1 counterexample: called with `top_k = 0` (≤ 0) in a benign environment,
`search_style` does not fail at all — it returns the empty-result sentinel —
and it contacts both the embedding backend and the document store (both logs
are non-empty).  There is no `InvalidTopK` validation in the code. -/
theorem C1_counterexample :
    (search_style envOkEmpty initState "q" 0).1 =
      "No relevant information found in the knowledge base." ∧
    (search_style envOkEmpty initState "q" 0).2.embedLog ≠ [] ∧
    (search_style envOkEmpty initState "q" 0).2.queryLog ≠ [] := by
  decide

/-- C1 (amended): none of the public search operations validates `top_k`, and
no `InvalidTopK` error exists.  For `top_k ≤ 0`, each of the three operations
still sends exactly one request to the embedding backend; whenever that
request succeeds it still issues exactly one store query, carrying the
non-positive `top_k` unchanged as the query's limit; and any resulting error
is converted into a `"Search failed: ..."` string like every other error (the
output is always either the formatter's output or such a message). -/
theorem C1_no_topk_validation (env : Env) (q : String) (k : Int) (_hk : k ≤ 0) :
    ((search_style env initState q k).2.embedLog =
        [⟨"nomic-embed-text:v1.5", "classification: " ++ q ++ ""⟩] ∧
      (∀ v, env.embedBackend ⟨"nomic-embed-text:v1.5", "classification: " ++ q ++ ""⟩ = .ok v →
        ∃ dq, (search_style env initState q k).2.queryLog = [dq] ∧ dq.top_k = k) ∧
      ((∃ rs, (search_style env initState q k).1 = formatResults rs) ∨
        (∃ e, (search_style env initState q k).1 = "Search failed: " ++ e))) ∧
    ((search_qa env initState q k).2.embedLog =
        [⟨"nomic-embed-text:v1.5", "search_query: " ++ q ++ ""⟩] ∧
      (∀ v, env.embedBackend ⟨"nomic-embed-text:v1.5", "search_query: " ++ q ++ ""⟩ = .ok v →
        ∃ dq, (search_qa env initState q k).2.queryLog = [dq] ∧ dq.top_k = k) ∧
      ((∃ rs, (search_qa env initState q k).1 = formatResults rs) ∨
        (∃ e, (search_qa env initState q k).1 = "Search failed: " ++ e))) ∧
    ((search_semantic_similarity env initState q k).2.embedLog =
        [⟨"nomic-embed-text:v1.5", "clustering: " ++ q ++ ""⟩] ∧
      (∀ v, env.embedBackend ⟨"nomic-embed-text:v1.5", "clustering: " ++ q ++ ""⟩ = .ok v →
        ∃ dq, (search_semantic_similarity env initState q k).2.queryLog = [dq] ∧
          dq.top_k = k) ∧
      ((∃ rs, (search_semantic_similarity env initState q k).1 = formatResults rs) ∨
        (∃ e, (search_semantic_similarity env initState q k).1 = "Search failed: " ++ e))) := by
  refine ⟨?_, ?_, ?_⟩
  · obtain ⟨h1, _h2, h3⟩ := run_search_logs env initState "style" "style" q k
      ⟨"nomic-embed-text:v1.5", "classification: ", "", "cosine"⟩
      ⟨"style", "Search for content clustered by theme or style"⟩ "<=>" "ASC"
      (by decide) (by decide) (by decide) (by decide)
    exact ⟨h1, fun v hv =>
      ⟨⟨"<=>", "ASC", "nomic-embed-text:v1.5", "style", v, k⟩, h3 v hv, rfl⟩,
      run_search_shape env initState "style" "style" q k⟩
  · obtain ⟨h1, _h2, h3⟩ := run_search_logs env initState "qa" "qa" q k
      ⟨"nomic-embed-text:v1.5", "search_query: ", "", "cosine"⟩
      ⟨"qa", "Search optimized for question->answer pairs"⟩ "<=>" "ASC"
      (by decide) (by decide) (by decide) (by decide)
    exact ⟨h1, fun v hv =>
      ⟨⟨"<=>", "ASC", "nomic-embed-text:v1.5", "qa", v, k⟩, h3 v hv, rfl⟩,
      run_search_shape env initState "qa" "qa" q k⟩
  · obtain ⟨h1, _h2, h3⟩ := run_search_logs env initState "semantic" "semantic" q k
      ⟨"nomic-embed-text:v1.5", "clustering: ", "", "cosine"⟩
      ⟨"semantic", "Search based on semantic similarity"⟩ "<=>" "ASC"
      (by decide) (by decide) (by decide) (by decide)
    exact ⟨h1, fun v hv =>
      ⟨⟨"<=>", "ASC", "nomic-embed-text:v1.5", "semantic", v, k⟩, h3 v hv, rfl⟩,
      run_search_shape env initState "semantic" "semantic" q k⟩

/-- Witness for C1 at `top_k = 0` in the benign environment. -/
theorem C1_witness :
    ((0 : Int) ≤ 0) ∧
    (((search_style envOkEmpty initState "q" 0).2.embedLog =
        [⟨"nomic-embed-text:v1.5", "classification: " ++ "q" ++ ""⟩] ∧
      (∀ v, envOkEmpty.embedBackend
          ⟨"nomic-embed-text:v1.5", "classification: " ++ "q" ++ ""⟩ = .ok v →
        ∃ dq, (search_style envOkEmpty initState "q" 0).2.queryLog = [dq] ∧
          dq.top_k = 0) ∧
      ((∃ rs, (search_style envOkEmpty initState "q" 0).1 = formatResults rs) ∨
        (∃ e, (search_style envOkEmpty initState "q" 0).1 = "Search failed: " ++ e))) ∧
    ((search_qa envOkEmpty initState "q" 0).2.embedLog =
        [⟨"nomic-embed-text:v1.5", "search_query: " ++ "q" ++ ""⟩] ∧
      (∀ v, envOkEmpty.embedBackend
          ⟨"nomic-embed-text:v1.5", "search_query: " ++ "q" ++ ""⟩ = .ok v →
        ∃ dq, (search_qa envOkEmpty initState "q" 0).2.queryLog = [dq] ∧
          dq.top_k = 0) ∧
      ((∃ rs, (search_qa envOkEmpty initState "q" 0).1 = formatResults rs) ∨
        (∃ e, (search_qa envOkEmpty initState "q" 0).1 = "Search failed: " ++ e))) ∧
    ((search_semantic_similarity envOkEmpty initState "q" 0).2.embedLog =
        [⟨"nomic-embed-text:v1.5", "clustering: " ++ "q" ++ ""⟩] ∧
      (∀ v, envOkEmpty.embedBackend
          ⟨"nomic-embed-text:v1.5", "clustering: " ++ "q" ++ ""⟩ = .ok v →
        ∃ dq, (search_semantic_similarity envOkEmpty initState "q" 0).2.queryLog = [dq] ∧
          dq.top_k = 0) ∧
      ((∃ rs, (search_semantic_similarity envOkEmpty initState "q" 0).1 = formatResults rs) ∨
        (∃ e, (search_semantic_similarity envOkEmpty initState "q" 0).1 =
          "Search failed: " ++ e)))) :=
  ⟨by decide, C1_no_topk_validation envOkEmpty "q" 0 (by decide)⟩

/-- C4: for every environment, state and input, each public search operation
returns a plain string — either the formatter's output or a descriptive
`"Search failed: ..."` message.  Every error (missing key, embedding failure,
store failure) is caught at the operation's boundary; since each operation is
a total function into `String`, no exception propagates. -/
theorem C4_error_boundary (env : Env) (st : ServerState) (q : String) (k : Int) :
    ((∃ rs, (search_style env st q k).1 = formatResults rs) ∨
      (∃ e, (search_style env st q k).1 = "Search failed: " ++ e)) ∧
    ((∃ rs, (search_qa env st q k).1 = formatResults rs) ∨
      (∃ e, (search_qa env st q k).1 = "Search failed: " ++ e)) ∧
    ((∃ rs, (search_semantic_similarity env st q k).1 = formatResults rs) ∨
      (∃ e, (search_semantic_similarity env st q k).1 = "Search failed: " ++ e)) :=
  ⟨run_search_shape env st "style" "style" q k,
   run_search_shape env st "qa" "qa" q k,
   run_search_shape env st "semantic" "semantic" q k⟩

/-- C9: no public search operation mutates the model table, task table,
operator table or sort-direction table: whatever the environment, starting
state and input, the four tables of the resulting state are those of the
starting state. -/
theorem C9_registry_unchanged (env : Env) (st : ServerState) (q : String) (k : Int) :
    ((search_style env st q k).2.models = st.models ∧
      (search_style env st q k).2.tasks = st.tasks ∧
      (search_style env st q k).2.distance_operators = st.distance_operators ∧
      (search_style env st q k).2.distance_order = st.distance_order) ∧
    ((search_qa env st q k).2.models = st.models ∧
      (search_qa env st q k).2.tasks = st.tasks ∧
      (search_qa env st q k).2.distance_operators = st.distance_operators ∧
      (search_qa env st q k).2.distance_order = st.distance_order) ∧
    ((search_semantic_similarity env st q k).2.models = st.models ∧
      (search_semantic_similarity env st q k).2.tasks = st.tasks ∧
      (search_semantic_similarity env st q k).2.distance_operators = st.distance_operators ∧
      (search_semantic_similarity env st q k).2.distance_order = st.distance_order) :=
  ⟨run_search_frame env st "style" "style" q k,
   run_search_frame env st "qa" "qa" q k,
   run_search_frame env st "semantic" "semantic" q k⟩

/-- C6: the embedding operation sends the backend exactly the framed text
`prefix ++ raw_text ++ suffix` under the profile's model identifier (that is
the one request appended to the log), and whenever the backend answers with a
vector, that vector is returned unmodified. -/
theorem C6_embedding_passthrough (env : Env) (st : ServerState) (text : String)
    (m : Model) (v : List Int)
    (h : env.embedBackend ⟨m.model, m.pre ++ text ++ m.suffix⟩ = .ok v) :
    (get_embedding env st text m).1 = .ok v ∧
    (get_embedding env st text m).2.embedLog =
      st.embedLog ++ [⟨m.model, m.pre ++ text ++ m.suffix⟩] :=
  ⟨by simp only [get_embedding]; exact h, rfl⟩

/-- Witness for C6 at a concrete profile and backend. -/
theorem C6_witness :
    (envOkEmpty.embedBackend ⟨"m", "p" ++ "t" ++ "s"⟩ = .ok [1]) ∧
    ((get_embedding envOkEmpty initState "t" ⟨"m", "p", "s", "cosine"⟩).1 = .ok [1] ∧
      (get_embedding envOkEmpty initState "t" ⟨"m", "p", "s", "cosine"⟩).2.embedLog =
        initState.embedLog ++ [⟨"m", "p" ++ "t" ++ "s"⟩]) :=
  ⟨rfl, C6_embedding_passthrough envOkEmpty initState "t" ⟨"m", "p", "s", "cosine"⟩ [1] rfl⟩

/-- Helper: every query a tool issues from the initial state carries the
cosine operator and ascending direction (specialized per profile key). -/
theorem run_search_query_cosine (env : Env) (q : String) (k : Int)
    (mk tk : String) (m : Model) (t : Task)
    (hm : initState.models.lookup mk = some m)
    (ht : initState.tasks.lookup tk = some t)
    (hcos : m.distance_metric = "cosine") :
    ∀ dq ∈ (run_search env initState mk tk q k).2.queryLog,
      dq.operator = "<=>" ∧ dq.order_direction = "ASC" := by
  intro dq hdq
  obtain ⟨h1, h2, h3⟩ := run_search_logs env initState mk tk q k m t "<=>" "ASC"
    hm ht (by rw [hcos]; decide) (by rw [hcos]; decide)
  cases h : env.embedBackend ⟨m.model, m.pre ++ q ++ m.suffix⟩ with
  | error e =>
    rw [(h2 e h).1] at hdq
    cases hdq
  | ok v =>
    rw [h3 v h] at hdq
    have : dq = ⟨"<=>", "ASC", m.model, t.name, v, k⟩ := by
      cases hdq with
      | head => rfl
      | tail _ hmem => cases hmem
    rw [this]
    exact ⟨rfl, rfl⟩

/-- C10: every profile in the static registry keeps the `"cosine"` default
for `distance_metric`, so it resolves to the `<=>` operator with ascending
order — and consequently every store query issued by any of the three exposed
search operations (from the startup state, in any environment) carries
operator `<=>` and direction `ASC`: the `inner_product` and `l2` rows of the
metric tables are unreachable from the exposed tools. -/
theorem C10_all_cosine :
    (∀ p ∈ MODELS, (Prod.snd p).distance_metric = "cosine" ∧
      DISTANCE_OPERATORS.lookup (Prod.snd p).distance_metric = some "<=>" ∧
      DISTANCE_ORDER.lookup (Prod.snd p).distance_metric = some "ASC") ∧
    (∀ env q k, ∀ dq ∈ (search_style env initState q k).2.queryLog,
      dq.operator = "<=>" ∧ dq.order_direction = "ASC") ∧
    (∀ env q k, ∀ dq ∈ (search_qa env initState q k).2.queryLog,
      dq.operator = "<=>" ∧ dq.order_direction = "ASC") ∧
    (∀ env q k, ∀ dq ∈ (search_semantic_similarity env initState q k).2.queryLog,
      dq.operator = "<=>" ∧ dq.order_direction = "ASC") := by
  refine ⟨by decide, ?_, ?_, ?_⟩
  · intro env q k
    exact run_search_query_cosine env q k "style" "style"
      ⟨"nomic-embed-text:v1.5", "classification: ", "", "cosine"⟩
      ⟨"style", "Search for content clustered by theme or style"⟩
      (by decide) (by decide) rfl
  · intro env q k
    exact run_search_query_cosine env q k "qa" "qa"
      ⟨"nomic-embed-text:v1.5", "search_query: ", "", "cosine"⟩
      ⟨"qa", "Search optimized for question->answer pairs"⟩
      (by decide) (by decide) rfl
  · intro env q k
    exact run_search_query_cosine env q k "semantic" "semantic"
      ⟨"nomic-embed-text:v1.5", "clustering: ", "", "cosine"⟩
      ⟨"semantic", "Search based on semantic similarity"⟩
      (by decide) (by decide) rfl

/-- Helper: the rendering loop produces exactly one entry per record. -/
theorem renderedFrom_length (n : Nat) (rs : List MatchRecord) :
    (renderedFrom n rs).length = rs.length := by
  induction rs generalizing n with
  | nil => rfl
  | cons r rs ih => simp [renderedFrom, ih]

/-- Helper: the `i`-th rendered entry is the entry for the `i`-th record,
numbered `n + i` when the counter starts at `n`. -/
theorem renderedFrom_getD (rs : List MatchRecord) (n i : Nat) (h : i < rs.length) :
    (renderedFrom n rs).getD i "" = formatEntry (n + i) (rs.getD i ⟨"", "", ""⟩) := by
  induction rs generalizing n i with
  | nil => exact absurd h (Nat.not_lt_zero i)
  | cons r rs ih =>
    cases i with
    | zero => simp [renderedFrom]
    | succ i =>
      have h2 : i < rs.length := by simpa using h
      have harith : n + 1 + i = n + (i + 1) := by omega
      calc (renderedFrom n (r :: rs)).getD (i + 1) ""
          = (renderedFrom (n + 1) rs).getD i "" := rfl
        _ = formatEntry (n + 1 + i) (rs.getD i ⟨"", "", ""⟩) := ih (n + 1) i h2
        _ = formatEntry (n + (i + 1)) ((r :: rs).getD (i + 1) ⟨"", "", ""⟩) := by
            rw [harith, List.getD_cons_succ]

/-- Helper: each rendered entry carries the record's document name verbatim. -/
theorem formatEntry_contains_name (i : Nat) (r : MatchRecord) :
    containsSub r.doc_name (formatEntry i r) := by
  refine ⟨"--- Result " ++ toString i ++ " | ",
    " | " ++ r.doc_id ++ " ---\n--- Document Start ---\nContent: " ++
      r.matching_content ++ "\n--- Document End ---\n", ?_⟩
  simp [formatEntry, String.append_assoc]

/-- Helper: each rendered entry carries the record's document id verbatim. -/
theorem formatEntry_contains_id (i : Nat) (r : MatchRecord) :
    containsSub r.doc_id (formatEntry i r) := by
  refine ⟨"--- Result " ++ toString i ++ " | " ++ r.doc_name ++ " | ",
    " ---\n--- Document Start ---\nContent: " ++ r.matching_content ++
      "\n--- Document End ---\n", ?_⟩
  simp [formatEntry, String.append_assoc]

/-- Helper: each rendered entry carries the matching content verbatim. -/
theorem formatEntry_contains_content (i : Nat) (r : MatchRecord) :
    containsSub r.matching_content (formatEntry i r) := by
  refine ⟨"--- Result " ++ toString i ++ " | " ++ r.doc_name ++ " | " ++
      r.doc_id ++ " ---\n--- Document Start ---\nContent: ",
    "\n--- Document End ---\n", ?_⟩
  simp [formatEntry, String.append_assoc]

/-- C8: on a non-empty record list the formatter output is the newline-join of
one rendered entry per record; the `i`-th entry (0-based) is the entry for the
`i`-th record numbered `i + 1` (1-based, input order preserved), and it
carries that record's document name, document id and matching content
verbatim as substrings. -/
theorem C8_numbered_verbatim (rs : List MatchRecord) (i : Nat) (h : i < rs.length) :
    formatResults rs = String.intercalate "\n" (renderedFrom 1 rs) ∧
    (renderedFrom 1 rs).length = rs.length ∧
    (renderedFrom 1 rs).getD i "" = formatEntry (i + 1) (rs.getD i ⟨"", "", ""⟩) ∧
    containsSub (rs.getD i ⟨"", "", ""⟩).doc_name ((renderedFrom 1 rs).getD i "") ∧
    containsSub (rs.getD i ⟨"", "", ""⟩).doc_id ((renderedFrom 1 rs).getD i "") ∧
    containsSub (rs.getD i ⟨"", "", ""⟩).matching_content ((renderedFrom 1 rs).getD i "") := by
  have hget := renderedFrom_getD rs 1 i h
  rw [Nat.add_comm 1 i] at hget
  refine ⟨?_, renderedFrom_length 1 rs, hget, ?_, ?_, ?_⟩
  · cases rs with
    | nil => exact absurd h (by simp)
    | cons a as => rfl
  · rw [hget]
    exact formatEntry_contains_name _ _
  · rw [hget]
    exact formatEntry_contains_id _ _
  · rw [hget]
    exact formatEntry_contains_content _ _

/-- Witness for C8 on a concrete one-record list. -/
theorem C8_witness :
    0 < ([(⟨"42", "policy.md", "Refunds within 30 days."⟩ : MatchRecord)] :
        List MatchRecord).length ∧
    (formatResults [(⟨"42", "policy.md", "Refunds within 30 days."⟩ : MatchRecord)] =
      String.intercalate "\n"
        (renderedFrom 1 [(⟨"42", "policy.md", "Refunds within 30 days."⟩ : MatchRecord)]) ∧
    (renderedFrom 1 [(⟨"42", "policy.md", "Refunds within 30 days."⟩ : MatchRecord)]).length =
      ([(⟨"42", "policy.md", "Refunds within 30 days."⟩ : MatchRecord)] :
        List MatchRecord).length ∧
    (renderedFrom 1 [(⟨"42", "policy.md", "Refunds within 30 days."⟩ : MatchRecord)]).getD 0 "" =
      formatEntry (0 + 1)
        (([(⟨"42", "policy.md", "Refunds within 30 days."⟩ : MatchRecord)] :
          List MatchRecord).getD 0 ⟨"", "", ""⟩) ∧
    containsSub
      (([(⟨"42", "policy.md", "Refunds within 30 days."⟩ : MatchRecord)] :
        List MatchRecord).getD 0 ⟨"", "", ""⟩).doc_name
      ((renderedFrom 1 [(⟨"42", "policy.md", "Refunds within 30 days."⟩ : MatchRecord)]).getD 0 "") ∧
    containsSub
      (([(⟨"42", "policy.md", "Refunds within 30 days."⟩ : MatchRecord)] :
        List MatchRecord).getD 0 ⟨"", "", ""⟩).doc_id
      ((renderedFrom 1 [(⟨"42", "policy.md", "Refunds within 30 days."⟩ : MatchRecord)]).getD 0 "") ∧
    containsSub
      (([(⟨"42", "policy.md", "Refunds within 30 days."⟩ : MatchRecord)] :
        List MatchRecord).getD 0 ⟨"", "", ""⟩).matching_content
      ((renderedFrom 1 [(⟨"42", "policy.md", "Refunds within 30 days."⟩ : MatchRecord)]).getD 0 "")) :=
  ⟨by decide,
    C8_numbered_verbatim [(⟨"42", "policy.md", "Refunds within 30 days."⟩ : MatchRecord)] 0
      (by decide)⟩

end KBDB
